import Mathlib

/-!
Verification development for the py-bakalari client library.

The Python sources under `src/api` are shallowly embedded below:

* `src/api/login.py` — `TokenSet` (credential record), `is_expired`,
  `to_dict`/`from_dict` (persistence serialisation), and the `LoginClient`
  operations `authenticate`, `get_valid_access_token`, `get_access_token`.
  The HTTP grant endpoint is modelled as an oracle (`NetOracle`) mapping the
  grant inputs to either a fresh `TokenSet` or a `LoginError` message, and the
  token file is modelled as the `Option TokenSet` it deserialises to.
* `src/api/timetable.py` — `format_text` / `format_json` with their lookup
  tables, date parsing, change/substitution handling and sorting.
* `src/api/komens.py` — `format_text` for message lists.

JSON values are modelled by `JVal` (null / bool / int / string), Python
dictionaries by association lists with Python's insertion/overwrite
semantics, and `datetime` instants by integer epoch seconds.
-/

/-- JSON / Python value as it appears in the API payloads and the token file.
Covers the scalar values the embedded code actually reads. -/
inductive JVal where
  | jnull
  | jbool (b : Bool)
  | jint (n : Int)
  | jstr (s : String)
  deriving DecidableEq

/-- Python truthiness of a `JVal` (`if v:`). -/
def jtruthy : JVal → Bool
  | .jnull => false
  | .jbool b => b
  | .jint n => n != 0
  | .jstr s => s != ""

/-- Python `str()` of a `JVal` (used by f-string interpolation). -/
def jstrOf : JVal → String
  | .jnull => "None"
  | .jbool true => "True"
  | .jbool false => "False"
  | .jint n => toString n
  | .jstr s => s

/-- Python `dict.get(k)`: `none` models an absent key, which Python reports
as `None`; `jget` collapses the two as the source code does. -/
def jget (v : Option JVal) : JVal := v.getD .jnull

/-- Python `a or b` on values (first operand when truthy, else second). -/
def jor (a b : JVal) : JVal := if jtruthy a then a else b

/-- Python `a or b` specialised to optional strings with default `d`
(`none` models absent/None, `""` is falsy). -/
def orStr (o : Option String) (d : String) : String :=
  match o with
  | some s => if s = "" then d else s
  | none => d

/-- Truthiness of an `Optional[str]` argument (`if username and password:`). -/
def optTruthy : Option String → Bool
  | none => false
  | some s => s != ""

/-- Whitespace characters recognised by Python's `str.strip` / `\s`
(ASCII subset, which covers the payloads in scope). -/
def isPyWs (c : Char) : Bool :=
  c = ' ' || c = '\t' || c = '\n' || c = '\r' || c = '\x0b' || c = '\x0c'

/-- Python `str.strip()` on a character list. -/
def pyStripL (l : List Char) : List Char :=
  ((l.dropWhile isPyWs).reverse.dropWhile isPyWs).reverse

/-- Python `str.strip()`. -/
def pyStrip (s : String) : String := String.mk (pyStripL s.toList)

/-- Helper for `collapseWs`: the flag records whether the previous character
was whitespace (already emitted as a single space). -/
def collapseWsAux : List Char → Bool → List Char
  | [], _ => []
  | c :: rest, prevWs =>
    if isPyWs c then
      if prevWs then collapseWsAux rest true
      else ' ' :: collapseWsAux rest true
    else c :: collapseWsAux rest false

/-- Python `re.sub(r"\s+", " ", s)`: collapse every whitespace run to one
space. -/
def collapseWs (s : String) : String := String.mk (collapseWsAux s.toList false)

/-- Lowercasing of one character as Python's `str.lower` performs it, on the
alphabet the sources use (ASCII plus the Czech accented capitals). -/
def pyLowerChar (c : Char) : Char :=
  if 'A' ≤ c ∧ c ≤ 'Z' then Char.ofNat (c.toNat + 32)
  else match c with
    | 'Á' => 'á' | 'Č' => 'č' | 'Ď' => 'ď' | 'É' => 'é' | 'Ě' => 'ě'
    | 'Í' => 'í' | 'Ň' => 'ň' | 'Ó' => 'ó' | 'Ř' => 'ř' | 'Š' => 'š'
    | 'Ť' => 'ť' | 'Ú' => 'ú' | 'Ů' => 'ů' | 'Ý' => 'ý' | 'Ž' => 'ž'
    | c => c

/-- Python `str.lower()` (on the alphabet in scope). -/
def pyLower (s : String) : String := String.mk (s.toList.map pyLowerChar)

/-- Does the list start with `needle`? -/
def leadsWith [DecidableEq α] : List α → List α → Bool
  | [], _ => true
  | _ :: _, [] => false
  | a :: as, b :: bs => if a = b then leadsWith as bs else false

/-- Python `needle in hay` (contiguous subsequence test). -/
def hasSub [DecidableEq α] (needle : List α) : List α → Bool
  | [] => needle.isEmpty
  | b :: bs => leadsWith needle (b :: bs) || hasSub needle bs

/-- Python `sub in s` on strings. -/
def strHasSub (s sub : String) : Bool := hasSub sub.toList s.toList

/-- Characters after the first `':'`, as `desc.split(":", 1)[1]`;
`none` when the string has no colon (`":" in desc` is false). -/
def afterFirstColon : List Char → Option (List Char)
  | [] => none
  | c :: rest => if c = ':' then some rest else afterFirstColon rest

/-- Decimal digit value of a character. -/
def digitVal (c : Char) : Option Nat :=
  if c.isDigit then some (c.toNat - 48) else none

/-- Fold decimal digits into a number, failing on a non-digit. -/
def digitsToNatAux : List Char → Nat → Option Nat
  | [], acc => some acc
  | c :: rest, acc =>
    match digitVal c with
    | some d => digitsToNatAux rest (acc * 10 + d)
    | none => none

/-- Parse a non-empty all-digit list. -/
def digitsToNat : List Char → Option Nat
  | [] => none
  | l => digitsToNatAux l 0

/-- Python `int(s)` on a string: strip whitespace, optional sign, digits;
`none` models the `ValueError`. -/
def pyStrToInt (s : String) : Option Int :=
  match pyStripL s.toList with
  | '+' :: rest => (digitsToNat rest).map Int.ofNat
  | '-' :: rest => (digitsToNat rest).map (fun n => -(Int.ofNat n))
  | rest => (digitsToNat rest).map Int.ofNat

/-- Python `int(v)` on a `JVal`; `none` models the raised exception. -/
def pyInt : JVal → Option Int
  | .jint n => some n
  | .jbool b => some (if b then 1 else 0)
  | .jstr s => pyStrToInt s
  | .jnull => none

/-- Association-list lookup (Python `d[k]` / `d.get(k)` on a dict that was
built by `dictInsert`, whose keys are therefore unique). -/
def dGet [DecidableEq α] : List (α × β) → α → Option β
  | [], _ => none
  | (a, b) :: rest, k => if a = k then some b else dGet rest k

/-- Python `d[k] = v`: overwrite in place, preserving the key's position,
else append. -/
def dictInsert [DecidableEq α] : List (α × β) → α → β → List (α × β)
  | [], k, v => [(k, v)]
  | (a, b) :: rest, k, v =>
    if a = k then (k, v) :: rest else (a, b) :: dictInsert rest k v

/-- Python `d.update(e)`: insert every pair of `e` into `d` in order. -/
def dictUpdate [DecidableEq α] (d e : List (α × β)) : List (α × β) :=
  e.foldl (fun acc kv => dictInsert acc kv.1 kv.2) d

/-! ## `src/api/login.py` -/

/-- Source: `TokenSet` dataclass of `src/api/login.py` (the Credential record).
`obtained_at` is the naive-UTC `datetime` as whole epoch seconds; the token
fields hold whatever JSON value the dict carried (the source never checks
their types), and `extra` is the open mapping of forward-compatible fields. -/
structure TokenSet where
  access_token : JVal
  refresh_token : JVal
  id_token : JVal
  token_type : JVal
  expires_in : Int
  obtained_at : Int
  extra : List (String × JVal)
  deriving DecidableEq

/-- Source: `TokenSet.is_expired`: `datetime.utcnow() + timedelta(seconds=margin) >=
self.obtained_at + timedelta(seconds=self.expires_in)`; `now` is the current
time in epoch seconds and the source's default margin is 10. -/
def is_expired (now margin : Int) (t : TokenSet) : Bool :=
  decide (now + margin ≥ t.obtained_at + t.expires_in)

/-- Keys that `TokenSet.from_dict` treats as reserved (everything else lands
in `extra`). -/
def reservedKeys : List String :=
  ["access_token", "refresh_token", "id_token", "token_type", "expires_in",
   "obtained_at"]

/-- Source: `TokenSet.to_dict`: the six named fields, then `d.update(self.extra)`
(so an extra entry with a reserved key overwrites the field). -/
def to_dict (t : TokenSet) : List (String × JVal) :=
  dictUpdate
    [("access_token", t.access_token), ("refresh_token", t.refresh_token),
     ("id_token", t.id_token), ("token_type", t.token_type),
     ("expires_in", .jint t.expires_in), ("obtained_at", .jint t.obtained_at)]
    t.extra

/-- Source: `TokenSet.from_dict`: `none` models a raised exception (`KeyError` on a
missing required token, `ValueError` from `int(...)`), which `load_tokens`
turns into an absent result. `now` is the default for a missing
`obtained_at`. -/
def from_dict (now : Int) (data : List (String × JVal)) : Option TokenSet :=
  match pyInt ((dGet data "obtained_at").getD (.jint now)) with
  | none => none
  | some obtained =>
    match dGet data "access_token", dGet data "refresh_token" with
    | some atk, some rtk =>
      match pyInt ((dGet data "expires_in").getD (.jint 0)) with
      | none => none
      | some ei =>
        some ⟨atk, rtk, (dGet data "id_token").getD .jnull,
              (dGet data "token_type").getD (.jstr "Bearer"), ei, obtained,
              data.filter (fun kv => !(reservedKeys.contains kv.1))⟩
    | _, _ => none

/-- Spec's AuthState enum; the source records the same information in
`LoginClient.last_auth_method` as `None`/`"cached"`/`"refresh"`/`"password"`. -/
inductive AuthState where
  | NONE
  | CACHED
  | REFRESHED
  | PASSWORD_LOGIN
  deriving DecidableEq

/-- Reading of `last_auth_method` as the spec's AuthState. -/
def authStateOf : Option String → AuthState
  | some "cached" => .CACHED
  | some "refresh" => .REFRESHED
  | some "password" => .PASSWORD_LOGIN
  | _ => .NONE

/-- Process-local state of a `LoginClient`: the token file's contents (as
the `TokenSet` it deserialises to; `none` = missing/corrupt file) and
`last_auth_method`. -/
structure ClientState where
  stored : Option TokenSet
  last_auth_method : Option String
  deriving DecidableEq

/-- A network call issued by `_login_request`, for tracking side effects. -/
inductive NetCall where
  | refreshCall (refresh_token : JVal)
  | loginCall (username password : String)
  deriving DecidableEq

/-- The grant endpoint (`POST /api/login`) as an oracle: each grant either
yields the `TokenSet` built by `_login_request` or raises `LoginError` with
a message. Transport-level exceptions (no response at all) are outside the
model. -/
structure NetOracle where
  refreshResp : JVal → Except String TokenSet
  pwResp : String → String → Except String TokenSet

/-- Source: `LoginClient.refresh`: perform the refresh grant; on success persist the
new tokens (`save_tokens`) and set `last_auth_method = "refresh"`. -/
def refreshOp (o : NetOracle) (rt : JVal) (st : ClientState) :
    Except String TokenSet × ClientState × List NetCall :=
  match o.refreshResp rt with
  | .ok t => (.ok t, ⟨some t, some "refresh"⟩, [.refreshCall rt])
  | .error e => (.error e, st, [.refreshCall rt])

/-- Source: `LoginClient.login_with_password`: password grant; on success persist and
set `last_auth_method = "password"`. -/
def loginWithPassword (o : NetOracle) (u p : String) (st : ClientState) :
    Except String TokenSet × ClientState × List NetCall :=
  match o.pwResp u p with
  | .ok t => (.ok t, ⟨some t, some "password"⟩, [.loginCall u p])
  | .error e => (.error e, st, [.loginCall u p])

/-- The exact message of the final `raise LoginError` in `authenticate`. -/
def noTokensMsg : String := "No valid tokens available and no credentials provided"

/-- Password-login fallback at the end of `authenticate`:
`if username and password: ... else raise LoginError(...)`. -/
def pwFallback (o : NetOracle) (username password : Option String)
    (st : ClientState) (calls : List NetCall) :
    Except String TokenSet × ClientState × List NetCall :=
  match username, password with
  | some u, some p =>
    if u = "" ∨ p = "" then (.error noTokensMsg, st, calls)
    else
      match loginWithPassword o u p st with
      | (r, st', cs) => (r, st', calls ++ cs)
  | _, _ => (.error noTokensMsg, st, calls)

/-- Source: `LoginClient.authenticate`: load the stored tokens; if present and not
expired return them (`last_auth_method = "cached"`); if expired try the
refresh grant; on refresh failure (or no stored tokens) fall back to the
password grant when credentials are supplied, else raise `LoginError`.
`now` is the current time in epoch seconds; the third component lists the
network calls issued. -/
def authenticate (o : NetOracle) (now : Int) (username password : Option String)
    (st : ClientState) : Except String TokenSet × ClientState × List NetCall :=
  match st.stored with
  | some token =>
    if is_expired now 10 token then
      match refreshOp o token.refresh_token st with
      | (.ok new, st', cs) => (.ok new, ⟨st'.stored, some "refresh"⟩, cs)
      | (.error _, st', cs) => pwFallback o username password st' cs
    else (.ok token, ⟨st.stored, some "cached"⟩, [])
  | none => pwFallback o username password st []

/-- Source: `LoginClient.get_valid_access_token`: like `get_access_token` but
returns `none` instead of raising `LoginError`. -/
def get_valid_access_token (o : NetOracle) (now : Int) (st : ClientState) :
    Option JVal × ClientState × List NetCall :=
  match st.stored with
  | none => (none, st, [])
  | some token =>
    if is_expired now 10 token then
      match refreshOp o token.refresh_token st with
      | (.ok new, st', cs) => (some new.access_token, st', cs)
      | (.error _, st', cs) => (none, st', cs)
    else (some token.access_token, st, [])

/-- Source: `LoginClient.get_access_token`: return a valid access token or raise
`LoginError` (no password fallback). -/
def get_access_token (o : NetOracle) (now : Int) (st : ClientState) :
    Except String JVal × ClientState × List NetCall :=
  match st.stored with
  | none => (.error "No tokens available; please login first", st, [])
  | some token =>
    if is_expired now 10 token then
      match refreshOp o token.refresh_token st with
      | (.ok new, st', cs) =>
        (.ok new.access_token,
         ⟨st'.stored, some ((st'.last_auth_method).getD "cached")⟩, cs)
      | (.error e, st', cs) =>
        (.error ("Failed to refresh token: " ++ e), st', cs)
    else
      (.ok token.access_token,
       ⟨st.stored, some ((st.last_auth_method).getD "cached")⟩, [])

/-! ## `src/api/timetable.py` -/

/-- One entry of the payload's `Hours` list (the keys `format_text` /
`format_json` read; `none` = key absent). -/
structure HourRec where
  Id : Option JVal
  BeginTime : Option JVal
  EndTime : Option JVal
  deriving DecidableEq

/-- One entry of the payload's `Subjects` list. `Id` is restricted to
string-or-absent because the source immediately calls `.strip()` on
`s.get("Id") or ""` (`none` covers an absent or null key). -/
structure SubjectRec where
  Id : Option String
  Abbrev : Option JVal
  Name : Option JVal
  deriving DecidableEq

/-- The `Change` record attached to an atom; `Description`/`ChangeType` are
read through `change.get(...) or ...` and then `.strip()`-ed, so they are
restricted to string-or-absent. -/
structure ChangeRec where
  Description : Option String
  ChangeType : Option String
  deriving DecidableEq

/-- One scheduled atom. `HourId = none` models `atom.get("HourId") is None`
(absent or null); `SubjectId` is string-or-absent (it is `.strip()`-ed);
`Change = none` models a falsy `atom.get("Change")` (absent, null or an
empty dict). -/
structure Atom where
  HourId : Option JVal
  SubjectId : Option String
  Change : Option ChangeRec
  deriving DecidableEq

/-- One entry of the payload's `Days` list. -/
structure DayRec where
  Date : Option JVal
  DayName : Option JVal
  DayType : Option JVal
  DayDescription : Option JVal
  Atoms : Option (List Atom)
  deriving DecidableEq

/-- Top-level timetable payload (`data.get("Days"/"Hours"/"Subjects") or []`;
`none` covers an absent, null or empty-list value, all falsy). -/
structure TData where
  Days : Option (List DayRec)
  Hours : Option (List HourRec)
  Subjects : Option (List SubjectRec)

/-- Begin/end pair stored in the hour map:
`(hh.get("BeginTime", ""), hh.get("EndTime", ""))`. -/
def hourVal (hh : HourRec) : JVal × JVal :=
  (hh.BeginTime.getD (.jstr ""), hh.EndTime.getD (.jstr ""))

/-- Source: `hour_map`: for each entry of `Hours`, key `int(hh.get("Id"))` (the
entry is skipped when `int` raises) mapping to the begin/end pair. -/
def buildHourMap (hours : List HourRec) : List (Int × (JVal × JVal)) :=
  hours.foldl
    (fun m hh =>
      match pyInt (jget hh.Id) with
      | some k => dictInsert m k (hourVal hh)
      | none => m)
    []

/-- Key of a subject entry: `(s.get("Id") or "").strip()`. -/
def subjKey (s : SubjectRec) : String := pyStrip (s.Id.getD "")

/-- Display name of a subject entry:
`s.get("Abbrev") or s.get("Name") or sid`. -/
def subjVal (s : SubjectRec) : JVal :=
  jor (jget s.Abbrev) (jor (jget s.Name) (.jstr (subjKey s)))

/-- Source: `subject_map`: trimmed id → display name. -/
def buildSubjectMap (subjects : List SubjectRec) : List (String × JVal) :=
  subjects.foldl (fun m s => dictInsert m (subjKey s) (subjVal s)) []

/-- Source: `subj = subject_map.get(subj_id, subj_id)` with
`subj_id = (atom.get("SubjectId") or "").strip()`. -/
def subjResolve (subjectMap : List (String × JVal)) (atom : Atom) : JVal :=
  let sid := pyStrip (atom.SubjectId.getD "")
  (dGet subjectMap sid).getD (.jstr sid)

/-- Source: `bt, et = hour_map.get(hid_int, ("", ""))` where `hid_int = int(hid)`
when `int` succeeds and the raw (necessarily missing) key otherwise. -/
def hourBtEt (hourMap : List (Int × (JVal × JVal))) (hid : JVal) : JVal × JVal :=
  match pyInt hid with
  | some k => (dGet hourMap k).getD (.jstr "", .jstr "")
  | none => (.jstr "", .jstr "")

/-- Source: `time_range = f"{bt}-{et}" if bt or et else str(hid)` (`format_text`). -/
def timeRangeText (hourMap : List (Int × (JVal × JVal))) (hid : JVal) : String :=
  let (bt, et) := hourBtEt hourMap hid
  if jtruthy bt || jtruthy et then jstrOf bt ++ "-" ++ jstrOf et else jstrOf hid

/-- Source: `desc = (change.get("Description") or change.get("ChangeType") or
"").strip()`. -/
def descOf (ch : ChangeRec) : String :=
  pyStrip (orStr ch.Description (orStr ch.ChangeType ""))

/-- Source: `"supl" in ldesc or "substitut" in ldesc` with `ldesc = desc.lower()`. -/
def hasSupl (desc : String) : Bool :=
  strHasSub (pyLower desc) "supl" || strHasSub (pyLower desc) "substitut"

/-- Substitute-teacher extraction: text after the first colon (whole
description when there is no colon), `.strip()`-ed, with whitespace runs
collapsed and a final `.strip()`. -/
def extractTeacher (desc : String) : String :=
  let raw :=
    match afterFirstColon desc.toList with
    | some rest => pyStrip (String.mk rest)
    | none => desc
  pyStrip (collapseWs raw)

/-- Entry rewriting when the atom carries a change (`format_text`).
`rx desc` stands for the prioritized regular-expression search for a
subject-change phrasing over `desc`: `some (old, new)` is `subj_map =
(old_subj, new_subj)` after the source's whitespace normalisation, `none`
means no pattern matched. Every source pattern requires the substring
`"zm"` or `"change"` (case-insensitively), so `rx` must return `none` on
descriptions without them. -/
def changedEntry (rx : String → Option (String × String))
    (hourMap : List (Int × (JVal × JVal))) (subj : JVal) (hid : Option JVal)
    (plain : String) (ch : ChangeRec) : String :=
  let desc := descOf ch
  match rx desc with
  | some (oldS, newS) =>
    match hid with
    | none => oldS ++ " -> " ++ newS
    | some h => timeRangeText hourMap h ++ " " ++ oldS ++ " -> " ++ newS
  | none =>
    if hasSupl desc then
      match hid with
      | none => jstrOf subj ++ " (Suplování: " ++ extractTeacher desc ++ ")"
      | some h =>
        timeRangeText hourMap h ++ " " ++ jstrOf subj ++ " (Suplování: " ++
          extractTeacher desc ++ ")"
    else if desc ≠ "" then
      match hid with
      | none => desc
      | some h => timeRangeText hourMap h ++ " " ++ desc
    else plain

/-- The entry string `format_text` renders for one atom. -/
def atomEntry (rx : String → Option (String × String))
    (hourMap : List (Int × (JVal × JVal))) (subjectMap : List (String × JVal))
    (atom : Atom) : String :=
  let subj := subjResolve subjectMap atom
  let plain :=
    match atom.HourId with
    | none => jstrOf subj
    | some h => timeRangeText hourMap h ++ " " ++ jstrOf subj
  match atom.Change with
  | none => plain
  | some ch => changedEntry rx hourMap subj atom.HourId plain ch

/-- Two decimal digits. -/
def d2 (a b : Char) : Option Nat :=
  match digitVal a, digitVal b with
  | some x, some y => some (10 * x + y)
  | _, _ => none

/-- Four decimal digits. -/
def d4 (a b c d : Char) : Option Nat :=
  match d2 a b, d2 c d with
  | some x, some y => some (100 * x + y)
  | _, _ => none

/-- Gregorian leap year. -/
def isLeap (y : Nat) : Bool := (y % 4 = 0 && y % 100 ≠ 0) || y % 400 = 0

/-- Days in a month. -/
def daysInMonth (y m : Nat) : Nat :=
  match m with
  | 1 => 31 | 2 => if isLeap y then 29 else 28 | 3 => 31 | 4 => 30
  | 5 => 31 | 6 => 30 | 7 => 31 | 8 => 31 | 9 => 30 | 10 => 31
  | 11 => 30 | 12 => 31 | _ => 0

/-- Strict `YYYY-MM-DD` calendar date (the validation
`datetime.fromisoformat` applies to the date part: year ≥ 1, month 1–12,
day within the month). -/
def parseDate10 : List Char → Option (Nat × Nat × Nat)
  | [y1, y2, y3, y4, '-', m1, m2, '-', dd1, dd2] =>
    match d4 y1 y2 y3 y4, d2 m1 m2, d2 dd1 dd2 with
    | some y, some m, some dd =>
      if 1 ≤ y ∧ 1 ≤ m ∧ m ≤ 12 ∧ 1 ≤ dd ∧ dd ≤ daysInMonth y m then
        some (y, m, dd)
      else none
    | _, _, _ => none
  | _ => none

/-- Two digits consumed from the front. -/
def parse2 : List Char → Option (Nat × List Char)
  | a :: b :: rest => (d2 a b).map (fun n => (n, rest))
  | _ => none

/-- Valid UTC-offset suffix of an ISO time (`±HH[:MM]`, `±HHMM`, `Z`, or
nothing). -/
def offsetOk (l : List Char) : Bool :=
  match l with
  | [] => true
  | ['Z'] => true
  | ['z'] => true
  | c :: rest =>
    if c = '+' ∨ c = '-' then
      match parse2 rest with
      | some (hh, r2) =>
        hh ≤ 23 &&
          match r2 with
          | [] => true
          | ':' :: r3 =>
            (match parse2 r3 with
             | some (mm, r4) => mm ≤ 59 && r4.isEmpty
             | none => false)
          | _ =>
            (match parse2 r2 with
             | some (mm, r4) => mm ≤ 59 && r4.isEmpty
             | none => false)
      | none => false
    else false

/-- Fractional seconds (at least one digit) followed by an optional offset. -/
def fracThenOffset (l : List Char) : Bool :=
  !(l.takeWhile (fun c => c.isDigit)).isEmpty &&
    offsetOk (l.dropWhile (fun c => c.isDigit))

/-- Valid ISO time-of-day with optional fraction and offset
(`HH[:MM[:SS[.ffffff]]][offset]`), as `datetime.fromisoformat` accepts after
the separator. -/
def timeOk (l : List Char) : Bool :=
  match parse2 l with
  | none => false
  | some (hh, r1) =>
    hh ≤ 23 &&
      match r1 with
      | ':' :: r2 =>
        (match parse2 r2 with
         | none => false
         | some (mm, r3) =>
           mm ≤ 59 &&
             match r3 with
             | ':' :: r4 =>
               (match parse2 r4 with
                | none => false
                | some (ss, r5) =>
                  ss ≤ 59 &&
                    match r5 with
                    | [] => true
                    | c :: r6 =>
                      if c = '.' ∨ c = ',' then fracThenOffset r6
                      else offsetOk (c :: r6))
             | _ => offsetOk r3)
      | _ => offsetOk r1

/-- Source: `datetime.fromisoformat`, reduced to the calendar date it yields: a bare
`YYYY-MM-DD`, or that date, a `'T'`/space separator and a valid time
(hyphenated calendar forms only — the compact `YYYYMMDD` and ISO-week forms
are outside the payloads in scope). -/
def fromIsoFull (s : String) : Option (Nat × Nat × Nat) :=
  let l := s.toList
  if l.length = 10 then parseDate10 l
  else if 11 ≤ l.length then
    match l.get? 10 with
    | some sep =>
      if sep = 'T' ∨ sep = ' ' then
        match parseDate10 (l.take 10) with
        | some ymd => if timeOk (l.drop 11) then some ymd else none
        | none => none
      else none
    | none => none
  else none

/-- Source: `raw_date.split("T", 1)[0]`. -/
def beforeTStr (s : String) : String :=
  String.mk (s.toList.takeWhile (fun c => c ≠ 'T'))

/-- Days since 1970-01-01 of a Gregorian date (civil-calendar algorithm;
all intermediate quantities are non-negative for years ≥ 1). -/
def daysFromCivil (y m d : Nat) : Int :=
  let yi : Int := if m ≤ 2 then (y : Int) - 1 else (y : Int)
  let era : Int := yi / 400
  let yoe : Int := yi - era * 400
  let mp : Int := ((m : Int) + 9) % 12
  let doy : Int := (153 * mp + 2) / 5 + (d : Int) - 1
  let doe : Int := yoe * 365 + yoe / 4 - yoe / 100 + doy
  era * 146097 + doe - 719468

/-- The fixed Czech weekday table of both formatters. -/
def weekdayNames : List String := ["Po", "Út", "St", "Čt", "Pá", "So", "Ne"]

/-- Source: `weekday_names[dt.weekday()]` (Python `weekday()`: Monday = 0). -/
def weekdayAbbrev (ymd : Nat × Nat × Nat) : String :=
  weekdayNames.getD ((daysFromCivil ymd.1 ymd.2.1 ymd.2.2 + 3) % 7).toNat ""

/-- Zero-pad to two digits. -/
def pad2 (n : Nat) : String := if n < 10 then "0" ++ toString n else toString n

/-- Zero-pad to four digits. -/
def pad4 (n : Nat) : String :=
  if n < 10 then "000" ++ toString n
  else if n < 100 then "00" ++ toString n
  else if n < 1000 then "0" ++ toString n
  else toString n

/-- Source: `f"{dt.day:02d}.{dt.month:02d}.{dt.year}"`. -/
def fmtDDMMYYYY (ymd : Nat × Nat × Nat) : String :=
  pad2 ymd.2.2 ++ "." ++ pad2 ymd.2.1 ++ "." ++ toString ymd.1

/-- Source: `dt.date().isoformat()`. -/
def isoDateStr (ymd : Nat × Nat × Nat) : String :=
  pad4 ymd.1 ++ "-" ++ pad2 ymd.2.1 ++ "-" ++ pad2 ymd.2.2

/-- Source: `raw_date = day.get("Date") or day.get("DayName") or None`. -/
def rawDateOf (day : DayRec) : JVal :=
  jor (jget day.Date) (jor (jget day.DayName) .jnull)

/-- Date handling of `format_text` for one day: returns
`(date_short, weekday)`. On success both are freshly formatted strings; on
parse failure (of both the full string and its part before `'T'`) the raw
value is kept and `weekday = day.get("DayName") or ""`; a falsy `raw_date`
leaves both initial empty strings. A non-string truthy raw value raises in
both `try` blocks and also takes the failure branch. -/
def textDayDate (day : DayRec) : JVal × JVal :=
  let raw := rawDateOf day
  if jtruthy raw then
    match raw with
    | .jstr s =>
      match fromIsoFull s with
      | some ymd => (.jstr (fmtDDMMYYYY ymd), .jstr (weekdayAbbrev ymd))
      | none =>
        match fromIsoFull (beforeTStr s) with
        | some ymd => (.jstr (fmtDDMMYYYY ymd), .jstr (weekdayAbbrev ymd))
        | none => (raw, jor (jget day.DayName) (.jstr ""))
    | _ => (raw, jor (jget day.DayName) (.jstr ""))
  else (.jstr "", .jstr "")

/-- One line of `format_text` for a day: entries joined with `" | "`
(`"(no hours)"` when there are none), prefixed by the
`"{date_short} - {weekday}"` header, with the Celebration banner when
`DayType == "Celebration"` and a truthy description exists. -/
def formatTextDay (rx : String → Option (String × String))
    (hourMap : List (Int × (JVal × JVal))) (subjectMap : List (String × JVal))
    (day : DayRec) : String :=
  let (dateShort, weekday) := textDayDate day
  let entries := (day.Atoms.getD []).map (atomEntry rx hourMap subjectMap)
  let line := if entries.isEmpty then "(no hours)"
              else String.intercalate " | " entries
  let header0 := jstrOf dateShort ++ " - " ++ jstrOf weekday
  let header :=
    if jget day.DayType = JVal.jstr "Celebration" then
      let dd := jget day.DayDescription
      if jtruthy dd then "** Celebration: " ++ jstrOf dd ++ " ** " ++ header0
      else header0
    else header0
  header ++ " -- " ++ line

namespace Timetable

/-- Source: `TimetableClient.format_text`. -/
def format_text (rx : String → Option (String × String)) (data : TData) :
    String :=
  let days := data.Days.getD []
  if days.isEmpty then "No timetable data returned."
  else
    let hm := buildHourMap (data.Hours.getD [])
    let sm := buildSubjectMap (data.Subjects.getD [])
    String.intercalate "\n" (days.map (formatTextDay rx hm sm))

end Timetable

/-- One record of `format_json`'s `hours` output. -/
structure HourOut where
  time_range : String
  subject : JVal
  change : Bool
  change_text : Option String
  deriving DecidableEq

/-- One record of `format_json`'s `days` output. -/
structure DayOut where
  date : JVal
  day_abbrev : JVal
  hours : List HourOut
  hours_count : Nat
  deriving DecidableEq

/-- Source: `_parse_time_key`: sortable `(hour, minute)` key from a begin-time value
(`(99, 99)` when it is falsy, not a string, or fails to parse). The argument
is first normalised by `bt if bt is not None else ""`. -/
def parseTimeKey (bt : JVal) : Int × Int :=
  let t := match bt with | .jnull => JVal.jstr "" | v => v
  if jtruthy t then
    match t with
    | .jstr s =>
      (match s.splitOn ":" with
       | [] => (99, 99)
       | p0 :: rest =>
         match pyStrToInt p0 with
         | none => (99, 99)
         | some h =>
           match rest with
           | [] => (h, 0)
           | p1 :: _ =>
             match pyStrToInt p1 with
             | none => (99, 99)
             | some m => (h, m))
    | _ => (99, 99)
  else (99, 99)

/-- Python tuple `≤` on the sort keys (lexicographic). -/
def keyLe (a b : Int × Int) : Bool :=
  decide (a.1 < b.1 ∨ (a.1 = b.1 ∧ a.2 ≤ b.2))

/-- Stable insertion into an ascending list (the element goes before the
first strictly-greater one, hence after existing equals). -/
def insertLe (le : α → α → Bool) (x : α) : List α → List α
  | [] => [x]
  | y :: ys => if le x y then x :: y :: ys else y :: insertLe le x ys

/-- Stable ascending sort, as Python's `list.sort`. -/
def sortLe (le : α → α → Bool) : List α → List α
  | [] => []
  | x :: xs => insertLe le x (sortLe le xs)

/-- Source: `format_json`'s record for one atom, paired with its `_sort_key`. -/
def jsonAtomPair (hourMap : List (Int × (JVal × JVal)))
    (subjectMap : List (String × JVal)) (atom : Atom) :
    (Int × Int) × HourOut :=
  let subj := subjResolve subjectMap atom
  let (bt, et) : JVal × JVal :=
    match atom.HourId with
    | none => (.jstr "", .jstr "")
    | some hid => hourBtEt hourMap hid
  let tr := if jtruthy bt || jtruthy et then jstrOf bt ++ "-" ++ jstrOf et
            else ""
  let (chg, ctext) : Bool × Option String :=
    match atom.Change with
    | none => (false, none)
    | some ch =>
      let d := descOf ch
      (d != "", some d)
  (parseTimeKey bt, ⟨tr, subj, chg, ctext⟩)

/-- Date handling of `format_json` for one day: returns
`(date_iso, day_abbrev)`. Only the part of the raw string before `'T'` is
parsed; on failure the raw value is kept and
`day_abbrev = day.get("DayName") or ""`; a falsy `raw_date` (that is,
`None`) is kept as `date_iso` with an empty abbreviation. -/
def jsonDayDate (day : DayRec) : JVal × JVal :=
  let raw := rawDateOf day
  if jtruthy raw then
    match raw with
    | .jstr s =>
      match fromIsoFull (beforeTStr s) with
      | some ymd => (.jstr (isoDateStr ymd), .jstr (weekdayAbbrev ymd))
      | none => (raw, jor (jget day.DayName) (.jstr ""))
    | _ => (raw, jor (jget day.DayName) (.jstr ""))
  else (raw, .jstr "")

/-- Source: `hours_count`: the number of produced hour records, overridden to 6 for
a Celebration day. -/
def jsonHoursCount (dayType : JVal) (n : Nat) : Nat :=
  if dayType = .jstr "Celebration" then 6 else n

/-- Source: `format_json`'s record for one day: the parsed date, the synthetic
full-day 8:00–13:30 entry for a Celebration with a truthy description, the
per-atom records sorted stably by begin-time key, and `hours_count`. -/
def formatJsonDay (hourMap : List (Int × (JVal × JVal)))
    (subjectMap : List (String × JVal)) (day : DayRec) : DayOut :=
  let dd := jsonDayDate day
  let celeb : List ((Int × Int) × HourOut) :=
    if jget day.DayType = JVal.jstr "Celebration" then
      let descr := jget day.DayDescription
      if jtruthy descr then [((8, 0), ⟨"8:00-13:30", descr, false, none⟩)]
      else []
    else []
  let entries := celeb ++ (day.Atoms.getD []).map (jsonAtomPair hourMap subjectMap)
  let sorted := sortLe (fun x y => keyLe x.1 y.1) entries
  let hoursOut := sorted.map Prod.snd
  ⟨dd.1, dd.2, hoursOut, jsonHoursCount (jget day.DayType) hoursOut.length⟩

namespace Timetable

/-- Source: `TimetableClient.format_json` (the list under the `"days"` key; an
absent/empty `Days` gives the empty list either way). -/
def format_json (data : TData) : List DayOut :=
  let hm := buildHourMap (data.Hours.getD [])
  let sm := buildSubjectMap (data.Subjects.getD [])
  (data.Days.getD []).map (formatJsonDay hm sm)

end Timetable

/-! ## `src/api/komens.py` -/

/-- One message, projected to the keys `KomensClient.format_text` reads
(`none` = key absent or null; any other key of the message dict is never
read by the formatter). -/
structure Msg where
  Id : Option JVal
  MessageId : Option JVal
  From : Option JVal
  Sender : Option JVal
  FromName : Option JVal
  Subject : Option JVal
  Title : Option JVal
  Date : Option JVal
  SentAt : Option JVal
  deriving DecidableEq

/-- Input of `KomensClient.format_text`: a dict (with its optional
`Messages` and `data` list fields) or a bare list. -/
inductive KomensData where
  | dict (Messages : Option (List Msg)) (dataField : Option (List Msg))
  | list (msgs : List Msg)

/-- The message list the formatter settles on (`Messages`, else `data`,
else the bare list). -/
def komensMessages : KomensData → Option (List Msg)
  | .dict ms df => match ms with | some l => some l | none => df
  | .list l => some l

/-- Source: `m.get("Id") or m.get("MessageId") or "?"`. -/
def msgId (m : Msg) : JVal := jor (jget m.Id) (jor (jget m.MessageId) (.jstr "?"))

/-- Source: `m.get("From") or m.get("Sender") or m.get("FromName") or ""`. -/
def msgSender (m : Msg) : JVal :=
  jor (jget m.From) (jor (jget m.Sender) (jor (jget m.FromName) (.jstr "")))

/-- Source: `m.get("Subject") or m.get("Title") or "(no subject)"`. -/
def msgSubject (m : Msg) : JVal :=
  jor (jget m.Subject) (jor (jget m.Title) (.jstr "(no subject)"))

/-- Source: `m.get("Date") or m.get("SentAt") or ""`. -/
def msgDate (m : Msg) : JVal := jor (jget m.Date) (jor (jget m.SentAt) (.jstr ""))

/-- Source: `f"{mid} | {sender} | {subject} | {dt}"`. -/
def msgLine (m : Msg) : String :=
  jstrOf (msgId m) ++ " | " ++ jstrOf (msgSender m) ++ " | " ++
    jstrOf (msgSubject m) ++ " | " ++ jstrOf (msgDate m)

namespace Komens

/-- Source: `KomensClient.format_text`. -/
def format_text (kd : KomensData) : String :=
  match komensMessages kd with
  | none => "No komens messages returned."
  | some ms =>
    if ms.isEmpty then "No komens messages returned."
    else String.intercalate "\n" (ms.map msgLine)

end Komens

/-! ## Dictionary lemmas -/

theorem dGet_dictInsert [DecidableEq α] (m : List (α × β)) (k : α) (v : β)
    (x : α) : dGet (dictInsert m k v) x = if k = x then some v else dGet m x := by
  induction m with
  | nil => simp [dictInsert, dGet]
  | cons kv rest ih =>
    obtain ⟨a, b⟩ := kv
    by_cases hak : a = k
    · subst hak
      by_cases hax : a = x <;> simp [dictInsert, dGet, hax]
    · by_cases hax : a = x
      · subst hax
        have hkx : ¬ k = a := fun h => hak h.symm
        simp [dictInsert, dGet, hak, hkx]
      · simp [dictInsert, dGet, hak, hax, ih]

theorem dGet_append [DecidableEq α] (d e : List (α × β)) (k : α) :
    dGet (d ++ e) k = match dGet d k with
      | some v => some v
      | none => dGet e k := by
  induction d with
  | nil => simp [dGet]
  | cons kv rest ih =>
    obtain ⟨a, b⟩ := kv
    by_cases hak : a = k <;> simp [dGet, hak, ih]

theorem dictInsert_append_of_none [DecidableEq α] (d : List (α × β)) (k : α)
    (v : β) (h : dGet d k = none) : dictInsert d k v = d ++ [(k, v)] := by
  induction d with
  | nil => simp [dictInsert]
  | cons kv rest ih =>
    obtain ⟨a, b⟩ := kv
    by_cases hak : a = k
    · simp [dGet, hak] at h
    · simp [dGet, hak] at h
      simp [dictInsert, hak, ih h]

theorem dictUpdate_append_of_disjoint [DecidableEq α] (e d : List (α × β))
    (h : ∀ kv ∈ e, dGet d kv.1 = none) (hnd : (e.map Prod.fst).Nodup) :
    dictUpdate d e = d ++ e := by
  induction e generalizing d with
  | nil => simp [dictUpdate]
  | cons kv rest ih =>
    have h0 : dGet d kv.1 = none := h kv (by simp)
    have step : dictUpdate d (kv :: rest) = dictUpdate (d ++ [kv]) rest := by
      simp [dictUpdate, dictInsert_append_of_none d kv.1 kv.2 h0]
    rw [step, ih (d ++ [kv])]
    · simp
    · intro kv' hkv'
      rw [dGet_append]
      have h1 : dGet d kv'.1 = none := h kv' (by simp [hkv'])
      have hmem : kv'.1 ∈ rest.map Prod.fst := List.mem_map_of_mem Prod.fst hkv'
      have hcons : (kv.1 :: rest.map Prod.fst).Nodup := by simpa using hnd
      have hne : ¬ kv.1 = kv'.1 := fun hh =>
        (List.nodup_cons.mp hcons).1 (hh ▸ hmem)
      simp [h1, dGet, hne]
    · exact (List.nodup_cons.mp (by simpa using hnd)).2

/-! ## Fixtures for witnesses and counterexamples -/

/-- A credential with a 100-second ttl obtained at epoch second 0. -/
def tokA : TokenSet := ⟨.jstr "A1", .jstr "R1", .jnull, .jstr "Bearer", 100, 0, []⟩

/-- A credential as returned by a successful refresh grant. -/
def tokB : TokenSet := ⟨.jstr "B1", .jstr "R2", .jnull, .jstr "Bearer", 100, 1000, []⟩

/-- A credential as returned by a successful password grant. -/
def tokC : TokenSet := ⟨.jstr "C1", .jstr "R3", .jnull, .jstr "Bearer", 100, 1000, []⟩

/-- An oracle whose grants always succeed. -/
def oOk : NetOracle := ⟨fun _ => .ok tokB, fun _ _ => .ok tokC⟩

/-- An oracle whose refresh grant fails with a `LoginError` and whose
password grant succeeds. -/
def oRefFail : NetOracle := ⟨fun _ => .error "Login failed: invalid grant", fun _ _ => .ok tokC⟩

/-- An oracle whose grants always fail with a `LoginError`. -/
def oErr : NetOracle := ⟨fun _ => .error "Login failed: invalid grant", fun _ _ => .error "Login failed: bad credentials"⟩

/-! ## C2 — `is_expired` -/

/-- C2 counterexample: a credential with ttl 5 > 0 obtained at second 1000
already counts as expired at its own `obtained_at` under the default margin
of 10, so `is_expired` is NOT false immediately after creation, contrary to
the claim. -/
theorem C2_counterexample :
    (0 : Int) < 5 ∧
      is_expired 1000 10 ⟨.jstr "a", .jstr "r", .jnull, .jstr "Bearer", 5, 1000, []⟩ = true := by
  constructor
  · decide
  · decide

/-- C2 amended: a credential counts as expired exactly when
`now + margin ≥ obtained_at + ttl` (margin defaulting to 10); consequently
`is_expired` at creation time (`now = obtained_at`) is false exactly when
`ttl > margin` — not for every `ttl > 0` — and once `now` advances past
`obtained_at + ttl` the credential is expired for any non-negative margin. -/
theorem C2_is_expired_characterisation (t : TokenSet) (now margin : Int)
    (hm : 0 ≤ margin) :
    (is_expired now margin t = true ↔
      now + margin ≥ t.obtained_at + t.expires_in) ∧
    (is_expired t.obtained_at margin t = false ↔ margin < t.expires_in) ∧
    (t.obtained_at + t.expires_in < now → is_expired now margin t = true) := by
  refine ⟨by simp [is_expired], ?_, ?_⟩
  · simp [is_expired]
  · intro h
    simp [is_expired]
    omega

/-- C2 witness: for the concrete credential `tokA` (ttl 100 > the default
margin 10, obtained at 0) the characterisation yields: not expired at
creation, expired at time 200. -/
theorem C2_is_expired_characterisation_witness :
    is_expired 0 10 tokA = false ∧ is_expired 200 10 tokA = true := by
  refine ⟨?_, ?_⟩
  · exact (C2_is_expired_characterisation tokA 0 10 (by decide)).2.1.mpr (by decide)
  · exact (C2_is_expired_characterisation tokA 200 10 (by decide)).2.2 (by decide)

/-! ## C1 — the `authenticate` cascade -/

/-- C1: `authenticate` follows the cascade exactly. (i) A stored, unexpired
credential is returned with `last_auth_method = "cached"` (AuthState CACHED)
and no network call. (ii) A stored but expired credential triggers the
refresh grant; on success the new credential is persisted and returned with
state REFRESHED. (iii) When refresh fails with `LoginError` and both
username and password are supplied (truthy), the password grant runs, is
persisted and returned with state PASSWORD_LOGIN; (iv) likewise when no
credential is stored at all. -/
theorem C1_authenticate_cascade (o : NetOracle) (now : Int)
    (u p : Option String) (st : ClientState) (t new : TokenSet)
    (u0 p0 : String) :
    (st.stored = some t → is_expired now 10 t = false →
      authenticate o now u p st = (.ok t, ⟨some t, some "cached"⟩, []) ∧
      authStateOf (authenticate o now u p st).2.1.last_auth_method = .CACHED) ∧
    (st.stored = some t → is_expired now 10 t = true →
      o.refreshResp t.refresh_token = .ok new →
      authenticate o now u p st =
        (.ok new, ⟨some new, some "refresh"⟩, [.refreshCall t.refresh_token]) ∧
      authStateOf (authenticate o now u p st).2.1.last_auth_method = .REFRESHED) ∧
    (st.stored = some t → is_expired now 10 t = true →
      (∃ e, o.refreshResp t.refresh_token = .error e) →
      u = some u0 → p = some p0 → u0 ≠ "" → p0 ≠ "" →
      o.pwResp u0 p0 = .ok new →
      authenticate o now u p st =
        (.ok new, ⟨some new, some "password"⟩,
          [.refreshCall t.refresh_token, .loginCall u0 p0]) ∧
      authStateOf (authenticate o now u p st).2.1.last_auth_method =
        .PASSWORD_LOGIN) ∧
    (st.stored = none → u = some u0 → p = some p0 → u0 ≠ "" → p0 ≠ "" →
      o.pwResp u0 p0 = .ok new →
      authenticate o now u p st =
        (.ok new, ⟨some new, some "password"⟩, [.loginCall u0 p0]) ∧
      authStateOf (authenticate o now u p st).2.1.last_auth_method =
        .PASSWORD_LOGIN) := by
  refine ⟨?_, ?_, ?_, ?_⟩
  · intro hst hexp
    simp [authenticate, hst, hexp, authStateOf]
  · intro hst hexp hrr
    simp [authenticate, hst, hexp, refreshOp, hrr, authStateOf]
  · intro hst hexp hrr hu hp hu0 hp0 hpw
    obtain ⟨e, hrr⟩ := hrr
    simp [authenticate, hst, hexp, refreshOp, hrr, pwFallback, hu, hp, hu0,
      hp0, loginWithPassword, hpw, authStateOf]
  · intro hst hu hp hu0 hp0 hpw
    simp [authenticate, hst, pwFallback, hu, hp, hu0, hp0,
      loginWithPassword, hpw, authStateOf]

/-- C1 witness: the four branches of the cascade at concrete inputs (fresh
token at time 0; expired token at time 1000 with a succeeding or failing
refresh grant; empty store). -/
theorem C1_authenticate_cascade_witness :
    (authenticate oOk 0 none none ⟨some tokA, none⟩ =
        (.ok tokA, ⟨some tokA, some "cached"⟩, []) ∧
      authStateOf (authenticate oOk 0 none none ⟨some tokA, none⟩).2.1.last_auth_method = .CACHED) ∧
    (authenticate oOk 1000 none none ⟨some tokA, none⟩ =
        (.ok tokB, ⟨some tokB, some "refresh"⟩, [.refreshCall (.jstr "R1")]) ∧
      authStateOf (authenticate oOk 1000 none none ⟨some tokA, none⟩).2.1.last_auth_method = .REFRESHED) ∧
    (authenticate oRefFail 1000 (some "u") (some "p") ⟨some tokA, none⟩ =
        (.ok tokC, ⟨some tokC, some "password"⟩,
          [.refreshCall (.jstr "R1"), .loginCall "u" "p"]) ∧
      authStateOf (authenticate oRefFail 1000 (some "u") (some "p") ⟨some tokA, none⟩).2.1.last_auth_method = .PASSWORD_LOGIN) ∧
    (authenticate oOk 0 (some "u") (some "p") ⟨none, none⟩ =
        (.ok tokC, ⟨some tokC, some "password"⟩, [.loginCall "u" "p"]) ∧
      authStateOf (authenticate oOk 0 (some "u") (some "p") ⟨none, none⟩).2.1.last_auth_method = .PASSWORD_LOGIN) := by
  refine ⟨?_, ?_, ?_, ?_⟩
  · exact (C1_authenticate_cascade oOk 0 none none ⟨some tokA, none⟩ tokA tokA "" "").1
      rfl (by decide)
  · exact (C1_authenticate_cascade oOk 1000 none none ⟨some tokA, none⟩ tokA tokB "" "").2.1
      rfl (by decide) rfl
  · exact (C1_authenticate_cascade oRefFail 1000 (some "u") (some "p")
      ⟨some tokA, none⟩ tokA tokC "u" "p").2.2.1 rfl (by decide)
      ⟨"Login failed: invalid grant", rfl⟩ rfl rfl (by decide) (by decide) rfl
  · exact (C1_authenticate_cascade oOk 0 (some "u") (some "p")
      ⟨none, none⟩ tokA tokC "u" "p").2.2.2 rfl rfl rfl (by decide) (by decide) rfl

/-! ## C8 — failure when no fallback credentials exist -/

/-- Source: `pwFallback` raises the final `LoginError` whenever
`if username and password:` is false. -/
theorem pwFallback_no_creds (o : NetOracle) (u p : Option String)
    (st : ClientState) (cs : List NetCall)
    (h : optTruthy u = false ∨ optTruthy p = false) :
    pwFallback o u p st cs = (.error noTokensMsg, st, cs) := by
  match u, p with
  | none, _ => simp [pwFallback]
  | some u0, none => simp [pwFallback]
  | some u0, some p0 =>
    simp [optTruthy] at h
    have : u0 = "" ∨ p0 = "" := h
    simp [pwFallback, this]

/-- C8 amended: when no stored credential exists, or the stored one is
expired and the refresh grant fails with a `LoginError`, and no truthy
username/password pair is supplied, `authenticate` raises `LoginError` —
with the message "No valid tokens available and no credentials provided"
(not the claim's paraphrase "no valid credential and no fallback
credentials"). -/
theorem C8_no_fallback_error (o : NetOracle) (now : Int)
    (u p : Option String) (st : ClientState)
    (hcred : optTruthy u = false ∨ optTruthy p = false)
    (hst : st.stored = none ∨
      ∃ t e, st.stored = some t ∧ is_expired now 10 t = true ∧
        o.refreshResp t.refresh_token = .error e) :
    (authenticate o now u p st).1 = .error noTokensMsg ∧
    noTokensMsg = "No valid tokens available and no credentials provided" := by
  refine ⟨?_, rfl⟩
  rcases hst with hnone | ⟨t, e, hsome, hexp, hrr⟩
  · simp [authenticate, hnone, pwFallback_no_creds o u p st [] hcred]
  · simp [authenticate, hsome, hexp, refreshOp, hrr,
      pwFallback_no_creds o u p st [.refreshCall t.refresh_token] hcred]

/-- C8 witness: concrete empty store and concrete expired store with a
failing refresh, both without credentials. -/
theorem C8_no_fallback_error_witness :
    ((authenticate oErr 0 none none ⟨none, none⟩).1 = .error noTokensMsg ∧
      noTokensMsg = "No valid tokens available and no credentials provided") ∧
    ((authenticate oErr 1000 none none ⟨some tokA, none⟩).1 = .error noTokensMsg ∧
      noTokensMsg = "No valid tokens available and no credentials provided") := by
  constructor
  · exact C8_no_fallback_error oErr 0 none none ⟨none, none⟩ (Or.inl rfl)
      (Or.inl rfl)
  · exact C8_no_fallback_error oErr 1000 none none ⟨some tokA, none⟩
      (Or.inl rfl)
      (Or.inr ⟨tokA, "Login failed: invalid grant", rfl, by decide, rfl⟩)

/-- C8 counterexample: the claim names the exact message
"no valid credential and no fallback credentials", but the code raises
"No valid tokens available and no credentials provided". -/
theorem C8_counterexample :
    (authenticate oErr 0 none none ⟨none, none⟩).1 =
      .error "No valid tokens available and no credentials provided" ∧
    "No valid tokens available and no credentials provided" ≠
      "no valid credential and no fallback credentials" := by
  exact ⟨rfl, by decide⟩

/-! ## C10 — `get_valid_access_token` as the Option-valued counterpart -/

/-- C10: given that the refresh-grant endpoint yields a response (the
`NetOracle` is total, so every outcome is a returned `TokenSet` or a
`LoginError`), `get_valid_access_token` never raises; it returns `none`
exactly when no credential is stored, or the stored one is expired and the
refresh grant fails with a `LoginError`; it returns `some` of the (possibly
refreshed) access token otherwise; and it agrees case-by-case with
`get_access_token`, which raises `LoginError` in exactly the `none` cases. -/
theorem C10_option_counterpart (o : NetOracle) (now : Int) (st : ClientState) :
    ((get_valid_access_token o now st).1 = none ↔
      st.stored = none ∨
        ∃ t e, st.stored = some t ∧ is_expired now 10 t = true ∧
          o.refreshResp t.refresh_token = .error e) ∧
    (∀ v, (get_valid_access_token o now st).1 = some v ↔
      (get_access_token o now st).1 = .ok v) ∧
    ((get_valid_access_token o now st).1 = none ↔
      ∃ m, (get_access_token o now st).1 = .error m) := by
  cases hst : st.stored with
  | none => simp [get_valid_access_token, get_access_token, hst]
  | some t =>
    by_cases hexp : is_expired now 10 t
    · cases hrr : o.refreshResp t.refresh_token with
      | ok new =>
        simp [get_valid_access_token, get_access_token, hst, hexp,
          refreshOp, hrr]
      | error e =>
        simp [get_valid_access_token, get_access_token, hst, hexp,
          refreshOp, hrr]
    · simp [get_valid_access_token, get_access_token, hst, hexp]

/-! ## C4 — persistence round trip -/

/-- The six named entries `to_dict` writes before `d.update(self.extra)`. -/
def tokenBaseFields (c : TokenSet) : List (String × JVal) :=
  [("access_token", c.access_token), ("refresh_token", c.refresh_token),
   ("id_token", c.id_token), ("token_type", c.token_type),
   ("expires_in", .jint c.expires_in), ("obtained_at", .jint c.obtained_at)]

theorem to_dict_eq_update (c : TokenSet) :
    to_dict c = dictUpdate (tokenBaseFields c) c.extra := rfl

/-- C4 amended: `load(save(C)) = C` holds for every credential whose `extra`
mapping avoids the six reserved keys (and whose `obtained_at` is a whole
second, as all instants are in this model) — but not for arbitrary extra
key/value pairs, because `to_dict` lets `d.update(self.extra)` overwrite the
named fields and `from_dict` strips reserved keys out of `extra` again. -/
theorem C4_roundtrip_amended (c : TokenSet) (now : Int)
    (hres : ∀ kv ∈ c.extra, reservedKeys.contains kv.1 = false)
    (hnd : (c.extra.map Prod.fst).Nodup) :
    from_dict now (to_dict c) = some c := by
  have hbase : ∀ kv ∈ c.extra, dGet (tokenBaseFields c) kv.1 = none := by
    intro kv hkv
    have h := hres kv hkv
    simp [reservedKeys] at h
    obtain ⟨h1, h2, h3, h4, h5, h6⟩ := h
    simp [tokenBaseFields, dGet, Ne.symm h1, Ne.symm h2, Ne.symm h3,
      Ne.symm h4, Ne.symm h5, Ne.symm h6]
  have happ : to_dict c = tokenBaseFields c ++ c.extra := by
    rw [to_dict_eq_update]
    exact dictUpdate_append_of_disjoint c.extra (tokenBaseFields c) hbase hnd
  rw [happ]
  have g1 : dGet (tokenBaseFields c ++ c.extra) "obtained_at" =
      some (.jint c.obtained_at) := by
    rw [dGet_append]; simp [tokenBaseFields, dGet]
  have g2 : dGet (tokenBaseFields c ++ c.extra) "access_token" =
      some c.access_token := by
    rw [dGet_append]; simp [tokenBaseFields, dGet]
  have g3 : dGet (tokenBaseFields c ++ c.extra) "refresh_token" =
      some c.refresh_token := by
    rw [dGet_append]; simp [tokenBaseFields, dGet]
  have g4 : dGet (tokenBaseFields c ++ c.extra) "id_token" =
      some c.id_token := by
    rw [dGet_append]; simp [tokenBaseFields, dGet]
  have g5 : dGet (tokenBaseFields c ++ c.extra) "token_type" =
      some c.token_type := by
    rw [dGet_append]; simp [tokenBaseFields, dGet]
  have g6 : dGet (tokenBaseFields c ++ c.extra) "expires_in" =
      some (.jint c.expires_in) := by
    rw [dGet_append]; simp [tokenBaseFields, dGet]
  have hb2 : (tokenBaseFields c).filter (fun kv => !decide (kv.1 ∈ reservedKeys)) = [] := by
    simp [tokenBaseFields, reservedKeys]
  have he2 : c.extra.filter (fun kv => !decide (kv.1 ∈ reservedKeys)) = c.extra := by
    apply List.filter_eq_self.mpr
    intro kv hkv
    have hr := hres kv hkv
    simp_all
  simp [from_dict, g1, g2, g3, g4, g5, g6, pyInt, hb2, he2]

/-- C4 witness: a concrete credential with two non-reserved extra fields
round-trips unchanged. -/
theorem C4_roundtrip_amended_witness :
    from_dict 0 (to_dict ⟨.jstr "A", .jstr "R", .jnull, .jstr "Bearer", 3600,
        1000, [("api_version", .jstr "3.0"), ("user_id", .jint 7)]⟩) =
      some ⟨.jstr "A", .jstr "R", .jnull, .jstr "Bearer", 3600, 1000,
        [("api_version", .jstr "3.0"), ("user_id", .jint 7)]⟩ := by
  exact C4_roundtrip_amended
    ⟨.jstr "A", .jstr "R", .jnull, .jstr "Bearer", 3600, 1000,
      [("api_version", .jstr "3.0"), ("user_id", .jint 7)]⟩ 0
    (by decide) (by decide)

/-- C4 counterexample: an extra entry with the reserved key `"token_type"`
breaks the round trip — `d.update(extra)` overwrites the named field on
save, and load strips the key out of `extra`, so the loaded credential
differs from the saved one in both `token_type` and `extra`. -/
theorem C4_counterexample :
    from_dict 0 (to_dict ⟨.jstr "A", .jstr "R", .jnull, .jstr "Bearer", 3600,
        1000, [("token_type", .jstr "X")]⟩) =
      some ⟨.jstr "A", .jstr "R", .jnull, .jstr "X", 3600, 1000, []⟩ ∧
    from_dict 0 (to_dict ⟨.jstr "A", .jstr "R", .jnull, .jstr "Bearer", 3600,
        1000, [("token_type", .jstr "X")]⟩) ≠
      some ⟨.jstr "A", .jstr "R", .jnull, .jstr "Bearer", 3600, 1000,
        [("token_type", .jstr "X")]⟩ := by
  exact ⟨by decide, by decide⟩

/-! ## C5 — Celebration days report six hours -/

/-- C5: for every day whose `DayType` is `"Celebration"`, `format_json`
reports `hours_count = 6` regardless of how many hour records were actually
produced for the day. -/
theorem C5_celebration_six_hours (hourMap : List (Int × (JVal × JVal)))
    (subjectMap : List (String × JVal)) (day : DayRec)
    (h : jget day.DayType = JVal.jstr "Celebration") :
    (formatJsonDay hourMap subjectMap day).hours_count = 6 := by
  simp [formatJsonDay, jsonHoursCount, h]

/-- C5 witness: a concrete Celebration day ("Vánoce") carrying two atoms —
three hour records are produced (the synthetic full-day entry plus the two
atoms) yet `hours_count` is 6. -/
theorem C5_celebration_six_hours_witness :
    (formatJsonDay [] []
        ⟨none, none, some (.jstr "Celebration"), some (.jstr "Vánoce"),
          some [⟨none, some "CJ", none⟩, ⟨none, some "M", none⟩]⟩).hours.length = 3 ∧
    (formatJsonDay [] []
        ⟨none, none, some (.jstr "Celebration"), some (.jstr "Vánoce"),
          some [⟨none, some "CJ", none⟩, ⟨none, some "M", none⟩]⟩).hours_count = 6 := by
  refine ⟨by decide, ?_⟩
  exact C5_celebration_six_hours [] []
    ⟨none, none, some (.jstr "Celebration"), some (.jstr "Vánoce"),
      some [⟨none, some "CJ", none⟩, ⟨none, some "M", none⟩]⟩ rfl

/-! ## C7 — date-parse failure handling -/

/-- C7 amended: when the day's raw date value is a non-empty string that
parses neither as a full ISO timestamp nor after discarding the part from
the first `'T'` on, both formatters retain the raw string verbatim, and both
set the weekday abbreviation to `day.get("DayName") or ""` — the DayName
value when that key is present and truthy, empty only otherwise. -/
theorem C7_parse_failure_fallback (day : DayRec) (s : String)
    (hraw : rawDateOf day = .jstr s) (hs : s ≠ "")
    (hfull : fromIsoFull s = none) (hpart : fromIsoFull (beforeTStr s) = none) :
    textDayDate day = (.jstr s, jor (jget day.DayName) (.jstr "")) ∧
    jsonDayDate day = (.jstr s, jor (jget day.DayName) (.jstr "")) := by
  constructor
  · simp [textDayDate, hraw, jtruthy, hs, hfull, hpart]
  · simp [jsonDayDate, hraw, jtruthy, hs, hpart]

/-- C7 witness: the unparsable date `"not-a-date"` with no `DayName` — the
raw string is retained and the abbreviation is empty. -/
theorem C7_parse_failure_fallback_witness :
    textDayDate ⟨some (.jstr "not-a-date"), none, none, none, some []⟩ =
      (.jstr "not-a-date", .jstr "") ∧
    jsonDayDate ⟨some (.jstr "not-a-date"), none, none, none, some []⟩ =
      (.jstr "not-a-date", .jstr "") := by
  exact C7_parse_failure_fallback
    ⟨some (.jstr "not-a-date"), none, none, none, some []⟩ "not-a-date"
    rfl (by decide) (by decide) (by decide)

/-- C7 counterexample: a day whose `Date` fails to parse but which carries
`DayName = "Mo"` — `format_json` keeps the raw date but sets the weekday
abbreviation to `"Mo"`, not to the empty string the claim requires. -/
theorem C7_counterexample :
    (formatJsonDay [] []
        ⟨some (.jstr "not-a-date"), some (.jstr "Mo"), none, none, some []⟩).date =
      .jstr "not-a-date" ∧
    (formatJsonDay [] []
        ⟨some (.jstr "not-a-date"), some (.jstr "Mo"), none, none, some []⟩).day_abbrev =
      .jstr "Mo" ∧
    (JVal.jstr "Mo") ≠ .jstr "" := by
  exact ⟨by decide, by decide, by decide⟩

/-! ## C3 — substitution rendering -/

/-- The subject-change matcher instance for descriptions on which none of
the source's four regular expressions can match: each pattern requires the
substring "zm" (Czech `změna` variants) or "change" case-insensitively, so
on descriptions without either the source's search yields no match and this
constant-`none` instance is exact. -/
def noSubjChangeRx : String → Option (String × String) := fun _ => none

/-- Fixture: one hour with id 1, 08:00–08:45. -/
def hoursA : List HourRec := [⟨some (.jstr "1"), some (.jstr "08:00"), some (.jstr "08:45")⟩]

/-- Fixture: subject "CJ" abbreviated "ČJ". -/
def subjA : List SubjectRec := [⟨some "CJ", some (.jstr "ČJ"), none⟩]

/-- Fixture: atom in hour 1, subject "CJ", change description
"Suplování: Jan Novák". -/
def atomSupl : Atom := ⟨some (.jstr "1"), some "CJ", some ⟨some "Suplování: Jan Novák", none⟩⟩

/-- C3 amended: for every atom whose change description does not match a
subject-change pattern but contains "supl" or "substitut"
(case-insensitively), `format_text` renders the entry as
`"{range} {subject} (Suplování: {teacher})"` — the label is the Czech
`Suplování`, not the claim's `Substitution` — where the teacher is the text
after the first colon (or the whole description without one), stripped and
with whitespace runs collapsed. -/
theorem C3_substitution_rendering (rx : String → Option (String × String))
    (hm : List (Int × (JVal × JVal))) (sm : List (String × JVal))
    (atom : Atom) (ch : ChangeRec) (hch : atom.Change = some ch)
    (hrx : rx (descOf ch) = none) (hsupl : hasSupl (descOf ch) = true) :
    atomEntry rx hm sm atom =
      (match atom.HourId with
       | none => jstrOf (subjResolve sm atom) ++ " (Suplování: " ++
           extractTeacher (descOf ch) ++ ")"
       | some h => timeRangeText hm h ++ " " ++ jstrOf (subjResolve sm atom) ++
           " (Suplování: " ++ extractTeacher (descOf ch) ++ ")") := by
  cases hhid : atom.HourId with
  | none => simp [atomEntry, hch, changedEntry, hrx, hsupl, hhid]
  | some h => simp [atomEntry, hch, changedEntry, hrx, hsupl, hhid]

/-- C3 witness: the fixture atom renders with the `Suplování` label and the
teacher extracted after the colon. -/
theorem C3_substitution_rendering_witness :
    atomEntry noSubjChangeRx (buildHourMap hoursA) (buildSubjectMap subjA)
        atomSupl =
      "08:00-08:45 ČJ (Suplování: Jan Novák)" := by
  have h := C3_substitution_rendering noSubjChangeRx (buildHourMap hoursA)
    (buildSubjectMap subjA) atomSupl ⟨some "Suplování: Jan Novák", none⟩
    rfl rfl (by decide)
  rw [h]
  decide

/-- C3 counterexample: the rendered entry for the spec's own example
description "Suplování: Jan Novák" carries "(Suplování: Jan Novák)", not the
"(Substitution: Jan Novák)" the claim states — the entry differs from the
claimed template and does not contain "Substitution" at all. (The
description contains neither "zm" nor "change", so the source's
subject-change patterns cannot match and `noSubjChangeRx` is exact here.) -/
theorem C3_counterexample :
    atomEntry noSubjChangeRx (buildHourMap hoursA) (buildSubjectMap subjA)
        atomSupl =
      "08:00-08:45 ČJ (Suplování: Jan Novák)" ∧
    "08:00-08:45 ČJ (Suplování: Jan Novák)" ≠
      "08:00-08:45 ČJ (Substitution: Jan Novák)" ∧
    strHasSub "08:00-08:45 ČJ (Suplování: Jan Novák)" "Substitution" = false := by
  exact ⟨by decide, by decide, by decide⟩

/-! ## C6 — lookup-table keying -/

theorem subjMap_foldl_isSome (l : List SubjectRec)
    (m : List (String × JVal)) (k : String) :
    (dGet (l.foldl (fun acc s => dictInsert acc (subjKey s) (subjVal s)) m) k).isSome = true ↔
      (dGet m k).isSome = true ∨ ∃ s ∈ l, subjKey s = k := by
  induction l generalizing m with
  | nil => simp
  | cons s rest ih =>
    rw [List.foldl_cons, ih, dGet_dictInsert]
    by_cases h : subjKey s = k
    · simp [h]
    · simp [h]

theorem hourMap_foldl_isSome (l : List HourRec)
    (m : List (Int × (JVal × JVal))) (n : Int) :
    (dGet (l.foldl
        (fun acc hh =>
          match pyInt (jget hh.Id) with
          | some key => dictInsert acc key (hourVal hh)
          | none => acc) m) n).isSome = true ↔
      (dGet m n).isSome = true ∨ ∃ hh ∈ l, pyInt (jget hh.Id) = some n := by
  induction l generalizing m with
  | nil => simp
  | cons hh rest ih =>
    rw [List.foldl_cons]
    cases hc : pyInt (jget hh.Id) with
    | none => simp only [hc]; rw [ih]; simp [hc]
    | some key =>
      simp only [hc]
      rw [ih, dGet_dictInsert]
      by_cases h : key = n
      · simp [h, hc]
      · simp [h, hc]

/-- C6 amended: the subject table is keyed by exact trimmed-string identifier
equality, so a subject lookup for key `k` succeeds exactly when some subject
entry's trimmed `Id` equals `k`; but the hour table is keyed by `int()`
conversion of the `Id` (entries whose id does not convert are skipped), so an
hour lookup for the converted key `n` succeeds exactly when some hour entry's
id converts to the same integer — e.g. ids `"02"` and `"2"` match although
they differ as trimmed strings. -/
theorem C6_lookup_tables (subjects : List SubjectRec) (hours : List HourRec)
    (k : String) (n : Int) :
    ((dGet (buildSubjectMap subjects) k).isSome = true ↔
      ∃ s ∈ subjects, subjKey s = k) ∧
    ((dGet (buildHourMap hours) n).isSome = true ↔
      ∃ hh ∈ hours, pyInt (jget hh.Id) = some n) := by
  constructor
  · rw [buildSubjectMap, subjMap_foldl_isSome]
    simp [dGet]
  · rw [buildHourMap, hourMap_foldl_isSome]
    simp [dGet]

/-- Fixture: one hour whose id is the string "02". -/
def hours02 : List HourRec := [⟨some (.jstr "02"), some (.jstr "08:00"), some (.jstr "08:45")⟩]

/-- Fixture: atom whose hour id is the string "2" (no change record). -/
def atom2 : Atom := ⟨some (.jstr "2"), some "M", none⟩

/-- C6 counterexample: with the hour table built from id `"02"`, an atom
with hour id `"2"` resolves the 08:00–08:45 time range — the lookup succeeds
(`int("02") = int("2") = 2`) although the two trimmed identifier strings
differ, so the hour table is not keyed by exact trimmed-string equality. -/
theorem C6_counterexample :
    atomEntry noSubjChangeRx (buildHourMap hours02) (buildSubjectMap []) atom2 =
      "08:00-08:45 M" ∧
    (dGet (buildHourMap hours02) 2).isSome = true ∧
    pyStrip "02" ≠ pyStrip "2" := by
  exact ⟨by decide, by decide, by decide⟩

/-! ## C9 — komens message rendering -/

/-- Fixture: a message carrying only a `Title` (the claim's "only Title and
SentDate populated" input: the `SentDate` key of the raw dict is not among
the keys `format_text` reads, so it has no representation in the `Msg`
projection and cannot influence the output). -/
def msgTitleOnly : Msg := ⟨none, none, none, none, none, none, some (.jstr "Hi"), none, none⟩

/-- C9 amended: an empty or absent message list yields the fixed sentinel
"No komens messages returned."; every message renders as
`"{id} | {sender} | {subject} | {date}"` with the per-field fallbacks
(id: Id/MessageId/"?", sender: From/Sender/FromName/"", subject:
Subject/Title/"(no subject)", date: Date/SentAt/""); and a message with only
`Title` populated renders `"? |  | {title} | "` — the date slot is empty
because `SentDate` is not among the recognised date keys, and the empty
sender leaves two spaces between the first separators. -/
theorem C9_message_rendering (ms : List Msg) (m : Msg) (hms : ms ≠ []) :
    Komens.format_text (.dict none none) = "No komens messages returned." ∧
    Komens.format_text (.dict (some []) none) = "No komens messages returned." ∧
    Komens.format_text (.list []) = "No komens messages returned." ∧
    Komens.format_text (.list ms) = String.intercalate "\n" (ms.map msgLine) ∧
    msgLine m = jstrOf (msgId m) ++ " | " ++ jstrOf (msgSender m) ++ " | " ++
      jstrOf (msgSubject m) ++ " | " ++ jstrOf (msgDate m) ∧
    Komens.format_text (.list [msgTitleOnly]) = "? |  | Hi | " := by
  refine ⟨rfl, rfl, rfl, ?_, rfl, by decide⟩
  cases ms with
  | nil => exact absurd rfl hms
  | cons m0 rest => simp [Komens.format_text, komensMessages]

/-- C9 witness: the rendering equalities at a concrete singleton list. -/
theorem C9_message_rendering_witness :
    Komens.format_text (.list [msgTitleOnly]) =
      String.intercalate "\n" ([msgTitleOnly].map msgLine) ∧
    Komens.format_text (.list [msgTitleOnly]) = "? |  | Hi | " := by
  have h := C9_message_rendering [msgTitleOnly] msgTitleOnly (by decide)
  exact ⟨h.2.2.2.1, h.2.2.2.2.2⟩

/-- C9 counterexample: for the claim's own input — a message with only
`Title` ("Hi") and `SentDate` ("2024-05-01") populated — the code renders
`"? |  | Hi | "`: the `SentDate` value cannot appear (the code only reads
`Date`/`SentAt`), and the empty sender yields two spaces, so the output
matches neither reading of the claimed `"? | | {title} | {date}"`. -/
theorem C9_counterexample :
    Komens.format_text (.dict (some [msgTitleOnly]) none) = "? |  | Hi | " ∧
    "? |  | Hi | " ≠ "? | | Hi | 2024-05-01" ∧
    "? |  | Hi | " ≠ "? | | Hi | " := by
  exact ⟨by decide, by decide, by decide⟩
